import Mathlib

/-
Verification of the generator architectures in models/Generator.py
(Multi-Singer). The Python classes Generator1 and Generator2 are shallowly
embedded: each constructor becomes a pure function returning the built
module topology (or none where the source raises AssertionError /
ZeroDivisionError / KeyError), the mutable upsample_params dictionary
becomes an explicit association list threaded through construction, and
the tensor-level forward/inference code is modelled at the level the
verified properties require (sequence lengths and elementwise real
arithmetic).
-/

/-- Values that appear in the upsample_params dictionary of
models/Generator.py (booleans, integers, and the upsample_scales list). -/
inductive UVal where
  | bool (b : Bool)
  | nat (n : Nat)
  | natList (l : List Nat)
  deriving DecidableEq, Repr

/-- A Python dict with string keys, modelled as an insertion-ordered
association list (CPython dicts preserve insertion order). -/
abbrev UDict := List (String × UVal)

/-- Setting one key of a dict: overwrite in place if the key is present,
otherwise append at the end (CPython dict semantics). -/
def UDict.set (d : UDict) (k : String) (v : UVal) : UDict :=
  if d.any (fun p => p.1 = k) then
    d.map (fun p => if p.1 = k then (k, v) else p)
  else
    d ++ [(k, v)]

/-- dict.update with a literal dict argument: set each key in order. -/
def UDict.update (d : UDict) : List (String × UVal) → UDict
  | [] => d
  | (k, v) :: rest => (d.set k v).update rest

/-- dict key lookup, none models a KeyError / missing key. -/
def UDict.get (d : UDict) (k : String) : Option UVal :=
  (d.find? (fun p => p.1 = k)).map (fun p => p.2)

/-- Configuration of a Conv1d1x1 layer (a pointwise convolution): input
channels, output channels, bias flag. -/
structure Conv1x1Cfg where
  in_channels : Nat
  out_channels : Nat
  bias : Bool
  deriving DecidableEq, Repr

/-- Configuration of a plain Conv1d layer as called at lines 129-130 of
models/Generator.py: in channels, out channels, kernel size, stride,
padding. -/
structure Conv1dCfg where
  in_channels : Nat
  out_channels : Nat
  kernel_size : Nat
  stride : Nat
  padding : Nat
  deriving DecidableEq, Repr

/-- The arguments Generator1.__init__ passes to ResidualBlock
(models/Generator.py lines 108-118). -/
structure ResidualBlockCfg1 where
  kernel_size : Nat
  residual_channels : Nat
  gate_channels : Nat
  skip_channels : Nat
  aux_channels : Nat
  dilation : Nat
  dropout : ℚ
  bias : Bool
  use_causal_conv : Bool
  deriving DecidableEq, Repr

/-- The arguments Generator2.__init__ passes to ResidualBlock
(models/Generator.py lines 276-283 and 289-296). -/
structure ResidualBlockCfg2 where
  kernel_size : Nat
  residual_channels : Nat
  aux_channels : Nat
  dilation : Nat
  dropout : ℚ
  bias : Bool
  deriving DecidableEq, Repr

/-- One stage of an output head: either torch.nn.ReLU or a Conv1d1x1 with
given input channels, output channels and bias. -/
inductive HeadLayer where
  | relu
  | conv1x1 (in_channels out_channels : Nat) (bias : Bool)
  deriving DecidableEq, Repr

/-- The topology Generator1.__init__ builds (models/Generator.py lines
22-137).  upsample_net is none when upsample_conditional_features is
false, otherwise the chosen network name together with the parameter dict
it was constructed from.  weight_norm_applied records whether
apply_weight_norm ran at construction.  pqmf_subbands is the explicit
subband argument passed to PQMF (Generator1 passes none, i.e. the
library default). -/
structure Generator1 where
  in_channels : Nat
  out_channels : Nat
  aux_channels : Nat
  aux_context_window : Nat
  layers : Nat
  stacks' : Nat
  kernel_size : Nat
  first_conv : Conv1x1Cfg
  upsample_net : Option (String × UDict)
  upsample_factor : Nat
  conv_layers : List ResidualBlockCfg1
  last_conv_layers : List HeadLayer
  pqmf_conv1 : Conv1dCfg
  pqmf_conv2 : Conv1dCfg
  weight_norm_applied : Bool
  pqmf_subbands : Option Nat
  deriving DecidableEq, Repr

/-- The topology Generator2.__init__ builds (models/Generator.py lines
238-319).  kernel_sizes, layers and stacks are the two-element lists of
the source, modelled as pairs since the constructor reads exactly the
indices 0 and 1. -/
structure Generator2 where
  in_channels : Nat
  out_channels : Nat
  aux_channels : Nat
  stacks' : Nat × Nat
  pqmf_subbands : Nat
  aux_context_window : Nat
  low_first_conv : Conv1x1Cfg
  up_first_conv : Conv1x1Cfg
  upsample_net : String × UDict
  low_conv_layers : List ResidualBlockCfg2
  up_conv_layers : List ResidualBlockCfg2
  last_low_conv_layers : List HeadLayer
  last_up_conv_layers : List HeadLayer
  upsample_factor : Nat
  weight_norm_applied : Bool
  deriving DecidableEq, Repr

/-- The default value of the dilation argument of
_get_receptive_field_size: lambda x: 2 ** x. -/
def defaultDilation (x : Nat) : Nat := 2 ^ x

/-- Generator1._get_receptive_field_size (models/Generator.py lines
222-228): asserts layers % stacks == 0 (none also models the
ZeroDivisionError raised by the Python % operator when stacks == 0), builds the
dilation list over a cycle of length layers // stacks, and returns
(kernel_size - 1) * sum(dilations) + 1 as a Python int (Lean Int, since
kernel_size - 1 may be negative). -/
def Generator1._get_receptive_field_size (layers stacks' kernel_size : Nat)
    (dilation : Nat → Nat) : Option Int :=
  if stacks' = 0 then none
  else if layers % stacks' ≠ 0 then none
  else
    some (((kernel_size : Int) - 1) *
      (((List.range layers).map
        (fun i => (dilation (i % (layers / stacks')) : Int))).sum) + 1)

/-- Generator2._get_receptive_field_size (models/Generator.py lines
377-383), textually identical to the Generator1 version. -/
def Generator2._get_receptive_field_size (layers stacks' kernel_size : Nat)
    (dilation : Nat → Nat) : Option Int :=
  Generator1._get_receptive_field_size layers stacks' kernel_size dilation

/-- The receptive_field_size property of Generator1 (lines 230-233):
calls the static method on the stored scalar fields with the default
dilation function. -/
def Generator1.receptive_field_size (g : Generator1) : Option Int :=
  Generator1._get_receptive_field_size g.layers g.stacks' g.kernel_size defaultDilation

/-- The residual blocks Generator1.__init__ builds (lines 104-119):
block i gets dilation 2 ** (i % layers_per_stack) with
layers_per_stack = layers // stacks. -/
def gen1ConvLayers (kernel_size layers stacks' residual_channels gate_channels
    skip_channels aux_channels : Nat) (dropout : ℚ)
    (bias use_causal_conv : Bool) : List ResidualBlockCfg1 :=
  (List.range layers).map (fun layer =>
    ⟨kernel_size, residual_channels, gate_channels, skip_channels,
     aux_channels, 2 ^ (layer % (layers / stacks')), dropout, bias,
     use_causal_conv⟩)

/-- The output head Generator1.__init__ builds (lines 121-127):
ReLU, Conv1d1x1(skip_channels, skip_channels), ReLU,
Conv1d1x1(skip_channels, in_channels). -/
def gen1LastConvLayers (skip_channels in_channels : Nat) : List HeadLayer :=
  [HeadLayer.relu,
   HeadLayer.conv1x1 skip_channels skip_channels true,
   HeadLayer.relu,
   HeadLayer.conv1x1 skip_channels in_channels true]

/-- The conv + upsampling network setup of Generator1.__init__ (lines
80-102), including its in-place mutations of upsample_params.  Returns
(some (net, upsample_factor), dict after mutation) on success, or
(none, dict after the mutations performed so far) where the source
raises (the MelGAN branch asserts aux_context_window == 0; reading a
missing or non-list upsample_scales key raises).  Name resolution inside
the external upsample/models modules is not modelled: the chosen name is
stored opaquely. -/
def gen1Upsample (upsample_conditional_features : Bool) (upsample_net : String)
    (use_causal_conv : Bool) (aux_channels aux_context_window : Nat)
    (d : UDict) : Option (Option (String × UDict) × Nat) × UDict :=
  if upsample_conditional_features then
    let d1 := d.update [("use_causal_conv", UVal.bool use_causal_conv)]
    if upsample_net = "MelGANGenerator" then
      if aux_context_window ≠ 0 then (none, d1)
      else
        let d2 := d1.update [("use_weight_norm", UVal.bool false),
                             ("use_final_nonlinear_activation", UVal.bool false)]
        match d2.get "upsample_scales" with
        | some (UVal.natList l) => (some (some (upsample_net, d2), l.prod), d2)
        | _ => (none, d2)
    else
      let d2 := if upsample_net = "ConvInUpsampleNetwork" then
          d1.update [("aux_channels", UVal.nat aux_channels),
                     ("aux_context_window", UVal.nat aux_context_window)]
        else d1
      match d2.get "upsample_scales" with
      | some (UVal.natList l) => (some (some (upsample_net, d2), l.prod), d2)
      | _ => (none, d2)
  else (some (none, 1), d)

/-- Generator1.__init__ (models/Generator.py lines 22-137).  Returns the
constructed instance and the upsample_params dict after construction; the
first component is none where the source raises: the assert
layers % stacks == 0 at line 74 (and the ZeroDivisionError % raises when
stacks == 0), which fires before any sub-module is built and before
upsample_params is touched, and the failure paths inside the upsampling
setup. -/
def Generator1.init (in_channels out_channels kernel_size layers stacks'
    residual_channels gate_channels skip_channels aux_channels
    aux_context_window : Nat) (dropout : ℚ)
    (bias use_weight_norm use_causal_conv upsample_conditional_features : Bool)
    (upsample_net : String) (upsample_params : UDict) :
    Option Generator1 × UDict :=
  if stacks' = 0 then (none, upsample_params)
  else if layers % stacks' ≠ 0 then (none, upsample_params)
  else
    match gen1Upsample upsample_conditional_features upsample_net
        use_causal_conv aux_channels aux_context_window upsample_params with
    | (none, d') => (none, d')
    | (some (net, factor), d') =>
      (some ⟨in_channels, out_channels, aux_channels, aux_context_window,
             layers, stacks', kernel_size,
             ⟨in_channels, residual_channels, true⟩,
             net, factor,
             gen1ConvLayers kernel_size layers stacks' residual_channels
               gate_channels skip_channels aux_channels dropout bias
               use_causal_conv,
             gen1LastConvLayers skip_channels in_channels,
             ⟨1, 128, kernel_size, 1, 3⟩,
             ⟨128, 1, kernel_size, 1, 3⟩,
             use_weight_norm, none⟩, d')

/-- One branch of residual blocks built by Generator2.__init__ (lines
272-297): block i of branch j gets dilation 2 ** (i % stacks_j) — note
the source uses stacks_j itself as the cycle length here, not
layers_j // stacks_j. -/
def gen2ConvLayers (kernel_size layers_j stacks_j residual_channels
    aux_channels : Nat) (dropout : ℚ) (bias : Bool) : List ResidualBlockCfg2 :=
  (List.range layers_j).map (fun layer =>
    ⟨kernel_size, residual_channels, aux_channels,
     2 ^ (layer % stacks_j), dropout, bias⟩)

/-- One output head built by Generator2.__init__ (lines 299-312): ReLU,
Conv1d1x1(residual_channels, residual_channels), ReLU,
Conv1d1x1(residual_channels, out_channels // 2). -/
def gen2LastConvLayers (residual_channels out_channels : Nat) : List HeadLayer :=
  [HeadLayer.relu,
   HeadLayer.conv1x1 residual_channels residual_channels true,
   HeadLayer.relu,
   HeadLayer.conv1x1 residual_channels (out_channels / 2) true]

/-- The in-place mutation Generator2.__init__ performs on upsample_params
(lines 266-269): insert aux_channels and aux_context_window. -/
def gen2UpdatedDict (aux_channels aux_context_window : Nat) (d : UDict) : UDict :=
  d.update [("aux_channels", UVal.nat aux_channels),
            ("aux_context_window", UVal.nat aux_context_window)]

/-- Generator2.__init__ (models/Generator.py lines 238-319).  The
constructor contains no layers/stacks divisibility check; the only
failure paths are the ZeroDivisionError of layer % stacks_j when a
branch has at least one layer but a zero stack count, and a missing or
non-list upsample_scales key when the factor is read at line 313.  The
upsample_params dict is updated in place with aux_channels and
aux_context_window (lines 266-269) before either failure can occur. -/
def Generator2.init (in_channels out_channels : Nat)
    (kernel_sizes layers stacks' : Nat × Nat)
    (residual_channels aux_channels aux_context_window : Nat) (dropout : ℚ)
    (bias use_weight_norm : Bool) (upsample_net : String)
    (upsample_params : UDict) : Option Generator2 × UDict :=
  if layers.1 ≠ 0 ∧ stacks'.1 = 0 then
    (none, gen2UpdatedDict aux_channels aux_context_window upsample_params)
  else if layers.2 ≠ 0 ∧ stacks'.2 = 0 then
    (none, gen2UpdatedDict aux_channels aux_context_window upsample_params)
  else
    match (gen2UpdatedDict aux_channels aux_context_window
        upsample_params).get "upsample_scales" with
    | some (UVal.natList l) =>
      (some ⟨in_channels, out_channels, aux_channels, stacks', out_channels,
             aux_context_window,
             ⟨in_channels, residual_channels, true⟩,
             ⟨in_channels, residual_channels, true⟩,
             (upsample_net,
              gen2UpdatedDict aux_channels aux_context_window upsample_params),
             gen2ConvLayers kernel_sizes.1 layers.1 stacks'.1
               residual_channels aux_channels dropout bias,
             gen2ConvLayers kernel_sizes.2 layers.2 stacks'.2
               residual_channels aux_channels dropout bias,
             gen2LastConvLayers residual_channels out_channels,
             gen2LastConvLayers residual_channels out_channels,
             l.prod, use_weight_norm⟩,
       gen2UpdatedDict aux_channels aux_context_window upsample_params)
    | _ => (none, gen2UpdatedDict aux_channels aux_context_window upsample_params)

/-- The default upsample_params dict of both constructors (lines 39 and
251): a single mutable dict object created once at function definition
time and shared by every call that omits the argument. -/
def gen1DefaultDict : UDict := [("upsample_scales", UVal.natList [4, 4, 4, 4])]

/-- A throwaway Generator1 value used only as the getD fallback when
extracting the concrete default-constructed instance below. -/
def gen1Fallback : Generator1 :=
  ⟨0, 0, 0, 0, 0, 1, 0, ⟨0, 0, true⟩, none, 1, [], [], ⟨0, 0, 0, 0, 0⟩,
   ⟨0, 0, 0, 0, 0⟩, false, none⟩

/-- Result of constructing Generator1 with all default arguments. -/
def gen1InitDefaultResult : Option Generator1 × UDict :=
  Generator1.init 1 1 3 30 3 64 128 64 80 2 0 true true false true
    "ConvInUpsampleNetwork" gen1DefaultDict

/-- The Generator1 instance built by the all-defaults construction. -/
def gen1ExampleInstance : Generator1 := gen1InitDefaultResult.1.getD gen1Fallback

/-- A throwaway Generator2 value used only as a getD fallback. -/
def gen2Fallback : Generator2 :=
  ⟨0, 0, 0, (1, 1), 0, 0, ⟨0, 0, true⟩, ⟨0, 0, true⟩, ("", []), [], [],
   [], [], 1, false⟩

/-- Result of constructing Generator2 with all default arguments. -/
def gen2InitDefaultResult : Option Generator2 × UDict :=
  Generator2.init 1 4 (7, 5) (16, 15) (8, 5) 64 80 2 0 true true
    "ConvInUpsampleNetwork" gen1DefaultDict

/-- The Generator2 instance built by the all-defaults construction. -/
def gen2ExampleInstance : Generator2 := gen2InitDefaultResult.1.getD gen2Fallback

/-- Python attribute values relevant to looking up attributes on a
Generator2 instance: scalar integers, the per-branch pair stored for
stacks, or an opaque sub-module. -/
inductive PyAttr where
  | nat (n : Nat)
  | pair (p : Nat × Nat)
  | submodule
  deriving DecidableEq, Repr

/-- Python attribute lookup on a Generator2 instance.  Generator2.__init__
(models/Generator.py lines 254-319) stores exactly the attributes
enumerated here; in particular it stores the per-branch pair stacks but
never stores scalar layers or kernel_size attributes, so looking those up
raises AttributeError, modelled as none. -/
def Generator2.getattr (g : Generator2) : String → Option PyAttr
  | "in_channels" => some (PyAttr.nat g.in_channels)
  | "out_channels" => some (PyAttr.nat g.out_channels)
  | "aux_channels" => some (PyAttr.nat g.aux_channels)
  | "stacks" => some (PyAttr.pair g.stacks')
  | "pqmf" => some PyAttr.submodule
  | "aux_context_window" => some (PyAttr.nat g.aux_context_window)
  | "low_first_conv" => some PyAttr.submodule
  | "up_first_conv" => some PyAttr.submodule
  | "upsample_net" => some PyAttr.submodule
  | "low_conv_layers" => some PyAttr.submodule
  | "up_conv_layers" => some PyAttr.submodule
  | "last_low_conv_layers" => some PyAttr.submodule
  | "last_up_conv_layers" => some PyAttr.submodule
  | "upsample_factor" => some (PyAttr.nat g.upsample_factor)
  | _ => none

/-- The receptive_field_size property of Generator2 (lines 385-388):
evaluates self.layers, self.stacks and self.kernel_size left to right and
passes them to the static method.  A missing attribute is an
AttributeError; a non-integer argument reaching the % of the static
method would be a TypeError; a failing assert there an AssertionError. -/
def Generator2.receptive_field_size (g : Generator2) : Except String Int :=
  match g.getattr "layers" with
  | none => Except.error "AttributeError"
  | some la =>
    match g.getattr "stacks" with
    | none => Except.error "AttributeError"
    | some st =>
      match g.getattr "kernel_size" with
      | none => Except.error "AttributeError"
      | some ks =>
        match la, st, ks with
        | PyAttr.nat l, PyAttr.nat s, PyAttr.nat k =>
          match Generator2._get_receptive_field_size l s k defaultDilation with
          | some r => Except.ok r
          | none => Except.error "AssertionError"
        | _, _, _ => Except.error "TypeError"

/-- The conditioning-length precondition at the top of Generator1.forward
(models/Generator.py lines 153-155): when a conditioning tensor is passed
(c is the conditioning length) and an upsample net is configured, the
conditioning is upsampled (upLen maps an input length to the output
length) and the source asserts c.size(-1) * 4 == x.size(-1), the 4 being
the band count of the PQMF analysis that follows.  ok means the call
proceeds past the check; error models the AssertionError aborting the
call before any result is produced. -/
def Generator1.forwardPrecheck (g : Generator1) (upLen : Nat → Nat)
    (xLen : Nat) (c : Option Nat) : Except String Unit :=
  match c, g.upsample_net with
  | some cLen, some _ =>
    if upLen cLen * 4 = xLen then Except.ok () else Except.error "AssertionError"
  | _, _ => Except.ok ()

/-- The conditioning-length precondition at the top of Generator2.forward
(lines 324-326): the upsampled conditioning length must equal the input
waveform length exactly (Generator2 always stores an upsample net, so
only the presence of the conditioning tensor is conditional). -/
def Generator2.forwardPrecheck (_g : Generator2) (upLen : Nat → Nat)
    (xLen : Nat) (c : Option Nat) : Except String Unit :=
  match c with
  | some cLen =>
    if upLen cLen = xLen then Except.ok () else Except.error "AssertionError"
  | none => Except.ok ()

/-- How Generator1.inference obtains its noise input. -/
inductive NoiseSource where
  | synthesized (len : Nat)
  | supplied
  deriving DecidableEq, Repr

/-- The input-synthesis logic of Generator1.inference (models/Generator.py
lines 187-193), at the level of the noise source: a supplied waveform is
used as-is (noise synthesis bypassed); otherwise the source asserts that
conditioning is present and draws standard-normal noise of shape
(1, 1, len(c) * self.upsample_factor * 4), the 4 being the band count;
with neither input the assert fails. -/
def Generator1.inferenceNoise (g : Generator1) (c : Option Nat)
    (x : Option Nat) : Except String NoiseSource :=
  match x with
  | some _ => Except.ok NoiseSource.supplied
  | none =>
    match c with
    | some cLen =>
      Except.ok (NoiseSource.synthesized (cLen * g.upsample_factor * 4))
    | none => Except.error "AssertionError"

/-- Weight-normalization state of one convolution sub-module. -/
inductive WNState where
  | normalized
  | plain
  deriving DecidableEq, Repr

/-- torch.nn.utils.remove_weight_norm: strips the reparameterization, or
raises ValueError when the module has no weight norm. -/
def removeWeightNormModule : WNState → Except String WNState
  | WNState.normalized => Except.ok WNState.plain
  | WNState.plain => Except.error "ValueError"

/-- The closure _remove_weight_norm inside both remove_weight_norm
methods (models/Generator.py lines 204-209 and 359-364): calls
torch.nn.utils.remove_weight_norm and catches exactly ValueError,
returning with the module left as it was; any other exception would
propagate. -/
def _remove_weight_norm (m : WNState) : Except String WNState :=
  match removeWeightNormModule m with
  | Except.ok m' => Except.ok m'
  | Except.error e => if e = "ValueError" then Except.ok m else Except.error e

/-- remove_weight_norm (lines 202-211 and 357-366): self.apply visits
every sub-module of the generator and runs the closure on each; an
uncaught exception at any sub-module would abort the whole traversal,
modelled by the Except-valued traversal. -/
def remove_weight_norm : List WNState → Except String (List WNState)
  | [] => Except.ok []
  | m :: ms =>
    match _remove_weight_norm m with
    | Except.error e => Except.error e
    | Except.ok m' =>
      match remove_weight_norm ms with
      | Except.error e => Except.error e
      | Except.ok ms' => Except.ok (m' :: ms')

/-- The total per-module effect of the closure: a normalized module
becomes plain, a plain module is left unchanged. -/
def stripWeightNorm : WNState → WNState
  | WNState.normalized => WNState.plain
  | WNState.plain => WNState.plain

/-- The residual-stack loop of Generator1.forward (models/Generator.py
lines 160-163) and of each Generator2 branch (lines 331-334 and 342-345),
with tensor entries modelled elementwise as real numbers: starting from
hidden state x and skip accumulator s, each block maps (hidden,
conditioning) to (new hidden, skip contribution) and the contributions
are summed.  Returns the final hidden state and the raw skip sum. -/
def residualLoop : List (ℝ → ℝ → ℝ × ℝ) → ℝ → ℝ → ℝ → ℝ × ℝ
  | [], x, _, s => (x, s)
  | f :: fs, x, c, s => residualLoop fs (f x c).1 c (s + (f x c).2)

/-- The per-block skip contributions produced along the trajectory of the
residual-stack loop, in evaluation order. -/
def skipContributions : List (ℝ → ℝ → ℝ × ℝ) → ℝ → ℝ → List ℝ
  | [], _, _ => []
  | f :: fs, x, c => (f x c).2 :: skipContributions fs (f x c).1 c

/-- The aggregated skip tensor handed to the output head: the raw
skip sum rescaled by skips *= math.sqrt(1.0 / len(conv_layers))
(models/Generator.py line 164; lines 335 and 346 are identical with the
block list of the respective branch). -/
noncomputable def aggregatedSkips (blocks : List (ℝ → ℝ → ℝ × ℝ))
    (x c : ℝ) : ℝ :=
  (residualLoop blocks x c 0).2 * Real.sqrt (1 / (blocks.length : ℝ))

/-- The two skip aggregations of Generator2.forward (lines 331-346): the
low branch runs over low_conv_layers starting from x1, the up branch over
up_conv_layers starting from x2, with the shared conditioning; each is
rescaled by the square root of the inverse of its own block count. -/
noncomputable def gen2AggregatedSkips (low up : List (ℝ → ℝ → ℝ × ℝ))
    (x1 x2 c : ℝ) : ℝ × ℝ :=
  (aggregatedSkips low x1 c, aggregatedSkips up x2 c)

/-- Sum of a function mapped over List.range agrees with the Finset sum
over the same range. -/
theorem listRangeMapSum (n : Nat) (f : Nat → Int) :
    ((List.range n).map f).sum = Finset.sum (Finset.range n) f := by
  induction n with
  | zero => simp
  | succ n ih =>
    rw [List.range_succ, List.map_append, List.sum_append,
      Finset.sum_range_succ, ih]
    simp

/-- C3: For every layers, stacks, kernel_size with stacks nonzero and
layers divisible by stacks, the derived receptive field size equals
(kernel_size - 1) * (sum over i below layers of 2 ^ (i mod
(layers / stacks))) + 1. -/
theorem receptive_field_closed_form (layers stacks' kernel_size : Nat)
    (h0 : stacks' ≠ 0) (h1 : layers % stacks' = 0) :
    Generator1._get_receptive_field_size layers stacks' kernel_size defaultDilation =
      some (((kernel_size : Int) - 1) *
        (Finset.sum (Finset.range layers)
          (fun i => (2 : Int) ^ (i % (layers / stacks')))) + 1) := by
  unfold Generator1._get_receptive_field_size
  rw [if_neg h0, if_neg (by simp [h1])]
  have hfun : (fun i => ((defaultDilation (i % (layers / stacks')) : Nat) : Int)) =
      fun i => (2 : Int) ^ (i % (layers / stacks')) := by
    funext i
    simp [defaultDilation]
  rw [hfun, listRangeMapSum]

/-- Witness for C3 at the instance given in the spec: kernel_size = 3,
layers = 6, stacks = 3 gives receptive field 19. -/
theorem receptive_field_closed_form_witness :
    Generator1._get_receptive_field_size 6 3 3 defaultDilation = some 19 := by
  rw [receptive_field_closed_form 6 3 3 (by decide) (by decide)]
  decide

/-- C4: For every Generator2 instance, reading the receptive_field_size
property never returns a value: the accessor first evaluates self.layers,
a scalar attribute the Generator2 constructor never stores, so every
access fails with an attribute-lookup error. -/
theorem gen2_receptive_field_attribute_error (g : Generator2) :
    g.receptive_field_size = Except.error "AttributeError" := rfl

/-- C5: With a conditioning tensor present and an upsampling network
configured, Generator1.forward proceeds exactly when the upsampled
conditioning length times the band count 4 equals the input length, and
Generator2.forward proceeds exactly when the upsampled conditioning
length equals the input length; on mismatch the call aborts with an
assertion error and no result is produced. -/
theorem forward_length_precondition (g1 : Generator1) (g2 : Generator2)
    (upLen : Nat → Nat) (xLen cLen : Nat)
    (h : g1.upsample_net.isSome = true) :
    (g1.forwardPrecheck upLen xLen (some cLen) = Except.ok () ↔
      upLen cLen * 4 = xLen) ∧
    (upLen cLen * 4 ≠ xLen →
      g1.forwardPrecheck upLen xLen (some cLen) = Except.error "AssertionError") ∧
    (g2.forwardPrecheck upLen xLen (some cLen) = Except.ok () ↔
      upLen cLen = xLen) ∧
    (upLen cLen ≠ xLen →
      g2.forwardPrecheck upLen xLen (some cLen) = Except.error "AssertionError") := by
  obtain ⟨p, hp⟩ := Option.isSome_iff_exists.mp h
  unfold Generator1.forwardPrecheck Generator2.forwardPrecheck
  rw [hp]
  by_cases h1 : upLen cLen * 4 = xLen <;> by_cases h2 : upLen cLen = xLen <;>
    simp [h1, h2]

/-- Witness for C5 on the default-constructed instances with the identity
upsampling length map. -/
theorem forward_length_precondition_witness :
    (gen1ExampleInstance.forwardPrecheck id 40 (some 10) = Except.ok () ↔
      id 10 * 4 = 40) ∧
    (id 10 * 4 ≠ 40 →
      gen1ExampleInstance.forwardPrecheck id 40 (some 10) =
        Except.error "AssertionError") ∧
    (gen2ExampleInstance.forwardPrecheck id 40 (some 10) = Except.ok () ↔
      id 10 = 40) ∧
    (id 10 ≠ 40 →
      gen2ExampleInstance.forwardPrecheck id 40 (some 10) =
        Except.error "AssertionError") :=
  forward_length_precondition gen1ExampleInstance gen2ExampleInstance id 40 10 rfl

/-- The raw skip accumulator after the loop is the starting value plus
the sum of the per-block contributions along the trajectory. -/
theorem residualLoop_snd (blocks : List (ℝ → ℝ → ℝ × ℝ)) :
    ∀ (x c s : ℝ), (residualLoop blocks x c s).2 =
      s + (skipContributions blocks x c).sum := by
  induction blocks with
  | nil => intro x c s; simp [residualLoop, skipContributions]
  | cons f fs ih =>
    intro x c s
    simp [residualLoop, skipContributions, ih, add_assoc]

/-- C6: The aggregated skip tensor passed to the output head equals the
raw elementwise sum of the per-block skip contributions multiplied by
1 / sqrt N, where N is the number of residual blocks of that stack; for
Generator2, each of the two stacks uses its own block count. -/
theorem skip_aggregation_scaling :
    (∀ (blocks : List (ℝ → ℝ → ℝ × ℝ)) (x c : ℝ),
      aggregatedSkips blocks x c =
        (skipContributions blocks x c).sum *
          (1 / Real.sqrt (blocks.length : ℝ))) ∧
    (∀ (low up : List (ℝ → ℝ → ℝ × ℝ)) (x1 x2 c : ℝ),
      gen2AggregatedSkips low up x1 x2 c =
        ((skipContributions low x1 c).sum * (1 / Real.sqrt (low.length : ℝ)),
         (skipContributions up x2 c).sum * (1 / Real.sqrt (up.length : ℝ)))) := by
  have h : ∀ (blocks : List (ℝ → ℝ → ℝ × ℝ)) (x c : ℝ),
      aggregatedSkips blocks x c =
        (skipContributions blocks x c).sum *
          (1 / Real.sqrt (blocks.length : ℝ)) := by
    intro blocks x c
    unfold aggregatedSkips
    rw [residualLoop_snd, zero_add, one_div, one_div, Real.sqrt_inv]
  exact ⟨h, fun low up x1 x2 c => by
    unfold gen2AggregatedSkips
    rw [h, h]⟩

/-- C7: Generator1.inference synthesizes standard-normal noise of length
conditioning_length * upsample_factor * 4 when only conditioning is
supplied, bypasses noise synthesis entirely when a waveform is supplied,
and fails with an assertion error when both are omitted. -/
theorem inference_noise_synthesis :
    (∀ (g : Generator1) (cLen : Nat),
      g.inferenceNoise (some cLen) none =
        Except.ok (NoiseSource.synthesized (cLen * g.upsample_factor * 4))) ∧
    (∀ (g : Generator1) (c : Option Nat) (xLen : Nat),
      g.inferenceNoise c (some xLen) = Except.ok NoiseSource.supplied) ∧
    (∀ g : Generator1,
      g.inferenceNoise none none = Except.error "AssertionError") :=
  ⟨fun _ _ => rfl, fun _ _ _ => rfl, fun _ => rfl⟩

/-- C9: remove_weight_norm visits every sub-module, swallows the
ValueError of a sub-module that was never weight-normalized, continues
over the remaining sub-modules, and returns normally; on a
never-normalized instance it is a no-op. -/
theorem remove_weight_norm_total :
    (∀ ms : List WNState,
      remove_weight_norm ms = Except.ok (ms.map stripWeightNorm)) ∧
    (∀ ms : List WNState, ms.all (fun m => m == WNState.plain) = true →
      remove_weight_norm ms = Except.ok ms) := by
  have h1 : ∀ ms : List WNState,
      remove_weight_norm ms = Except.ok (ms.map stripWeightNorm) := by
    intro ms
    induction ms with
    | nil => rfl
    | cons m ms ih =>
      have hm : _remove_weight_norm m = Except.ok (stripWeightNorm m) := by
        cases m <;> rfl
      simp [remove_weight_norm, hm, ih]
  refine ⟨h1, fun ms hall => ?_⟩
  have hid : ms.map stripWeightNorm = ms := by
    have hmem : ∀ m ∈ ms, stripWeightNorm m = m := by
      intro m hm
      have h := List.all_eq_true.mp hall m hm
      rw [beq_iff_eq] at h
      subst h
      rfl
    calc ms.map stripWeightNorm = ms.map id := List.map_congr_left hmem
    _ = ms := List.map_id ms
  rw [h1 ms, hid]

/-- Witness for C9: removing weight norm from a generator none of whose
sub-modules was ever normalized returns normally and changes nothing. -/
theorem remove_weight_norm_total_witness :
    [WNState.plain, WNState.plain].all (fun m => m == WNState.plain) = true ∧
    remove_weight_norm [WNState.plain, WNState.plain] =
      Except.ok [WNState.plain, WNState.plain] :=
  ⟨by decide,
   remove_weight_norm_total.2 [WNState.plain, WNState.plain] (by decide)⟩

/-- Inversion of a successful Generator1 construction: the fields of the
returned instance are the ones __init__ assigns. -/
theorem gen1_init_inv (a b k l s rc gc sc ac acw : Nat) (dr : ℚ)
    (bi uwn ucc ucf : Bool) (un : String) (d : UDict) (g : Generator1)
    (d' : UDict)
    (h : Generator1.init a b k l s rc gc sc ac acw dr bi uwn ucc ucf un d =
      (some g, d')) :
    g.conv_layers = gen1ConvLayers k l s rc gc sc ac dr bi ucc ∧
    g.last_conv_layers = gen1LastConvLayers sc a ∧
    g.layers = l ∧ g.stacks' = s := by
  unfold Generator1.init at h
  split at h
  · simp at h
  split at h
  · simp at h
  split at h
  · simp at h
  rename_i net factor heq
  rw [Prod.mk.injEq] at h
  obtain ⟨h1, h2⟩ := h
  rw [Option.some.injEq] at h1
  subst h1
  exact ⟨rfl, rfl, rfl, rfl⟩

/-- Inversion of a successful Generator2 construction: the fields of the
returned instance are the ones __init__ assigns. -/
theorem gen2_init_inv (a b : Nat) (ks l s : Nat × Nat) (rc ac acw : Nat)
    (dr : ℚ) (bi uwn : Bool) (un : String) (d : UDict) (g : Generator2)
    (d' : UDict)
    (h : Generator2.init a b ks l s rc ac acw dr bi uwn un d = (some g, d')) :
    g.low_conv_layers = gen2ConvLayers ks.1 l.1 s.1 rc ac dr bi ∧
    g.up_conv_layers = gen2ConvLayers ks.2 l.2 s.2 rc ac dr bi ∧
    g.last_low_conv_layers = gen2LastConvLayers rc b ∧
    g.last_up_conv_layers = gen2LastConvLayers rc b ∧
    g.stacks' = s := by
  unfold Generator2.init at h
  split at h
  · simp at h
  split at h
  · simp at h
  split at h
  · rw [Prod.mk.injEq] at h
    obtain ⟨h1, h2⟩ := h
    rw [Option.some.injEq] at h1
    subst h1
    exact ⟨rfl, rfl, rfl, rfl, rfl⟩
  · simp at h

/-- Counterexample to C1 as stated: in the default Generator2
construction (layers = [16, 15], stacks = [8, 5]) the low-branch
dilations follow 2 ^ (i mod stacks_0) = 2 ^ (i mod 8), so block 2 has
dilation 4, while the claimed formula 2 ^ (i mod (layers_0 / stacks_0)) =
2 ^ (i mod 2) gives 1 there. -/
theorem gen2_dilation_counterexample :
    gen2InitDefaultResult.1.map
      (fun g => g.low_conv_layers.map (fun blk => blk.dilation)) =
      some [1, 2, 4, 8, 16, 32, 64, 128,
            1, 2, 4, 8, 16, 32, 64, 128] ∧
    (2 : Nat) ^ (2 % (16 / 8)) = 1 ∧ (4 : Nat) ≠ 1 :=
  ⟨by decide, by decide, by decide⟩

/-- C1 amended: in Generator1 the dilation of the i-th residual block is
2 ^ (i mod (layers / stacks)) (periodic with period layers / stacks); in
Generator2 each branch instead uses its stack count itself as the cycle
length, dilation 2 ^ (i mod stacks_j), not 2 ^ (i mod
(layers_j / stacks_j)). -/
theorem dilation_schedule_amended :
    (∀ (a b k l s rc gc sc ac acw : Nat) (dr : ℚ) (bi uwn ucc ucf : Bool)
       (un : String) (d : UDict) (g : Generator1) (d' : UDict),
      Generator1.init a b k l s rc gc sc ac acw dr bi uwn ucc ucf un d =
        (some g, d') →
      g.conv_layers.map (fun blk => blk.dilation) =
        (List.range l).map (fun i => 2 ^ (i % (l / s)))) ∧
    (∀ (a b : Nat) (ks l s : Nat × Nat) (rc ac acw : Nat) (dr : ℚ)
       (bi uwn : Bool) (un : String) (d : UDict) (g : Generator2) (d' : UDict),
      Generator2.init a b ks l s rc ac acw dr bi uwn un d = (some g, d') →
      g.low_conv_layers.map (fun blk => blk.dilation) =
        (List.range l.1).map (fun i => 2 ^ (i % s.1)) ∧
      g.up_conv_layers.map (fun blk => blk.dilation) =
        (List.range l.2).map (fun i => 2 ^ (i % s.2))) := by
  constructor
  · intro a b k l s rc gc sc ac acw dr bi uwn ucc ucf un d g d' h
    rw [(gen1_init_inv a b k l s rc gc sc ac acw dr bi uwn ucc ucf un d g d' h).1]
    unfold gen1ConvLayers
    rw [List.map_map]
    rfl
  · intro a b ks l s rc ac acw dr bi uwn un d g d' h
    obtain ⟨h1, h2, _, _, _⟩ := gen2_init_inv a b ks l s rc ac acw dr bi uwn un d g d' h
    rw [h1, h2]
    unfold gen2ConvLayers
    rw [List.map_map, List.map_map]
    exact ⟨rfl, rfl⟩

/-- Witness for the amended C1 on the default-constructed instances. -/
theorem dilation_schedule_amended_witness :
    gen1ExampleInstance.conv_layers.map (fun blk => blk.dilation) =
      (List.range 30).map (fun i => 2 ^ (i % (30 / 3))) ∧
    gen2ExampleInstance.low_conv_layers.map (fun blk => blk.dilation) =
      (List.range 16).map (fun i => 2 ^ (i % 8)) ∧
    gen2ExampleInstance.up_conv_layers.map (fun blk => blk.dilation) =
      (List.range 15).map (fun i => 2 ^ (i % 5)) := by
  have h1 := dilation_schedule_amended.1 1 1 3 30 3 64 128 64 80 2 0 true true
    false true "ConvInUpsampleNetwork" gen1DefaultDict gen1ExampleInstance
    gen1InitDefaultResult.2 rfl
  have h2 := dilation_schedule_amended.2 1 4 (7, 5) (16, 15) (8, 5) 64 80 2 0
    true true "ConvInUpsampleNetwork" gen1DefaultDict gen2ExampleInstance
    gen2InitDefaultResult.2 rfl
  exact ⟨h1, h2.1, h2.2⟩

/-- Counterexample to C2 as stated: Generator2 constructed with
layers = [3, 15], stacks = [2, 5] (3 not divisible by 2) does not fail;
the instance is created with all three low-branch residual blocks
built. -/
theorem gen2_no_divisibility_check :
    ¬ ((2 : Nat) ∣ 3) ∧
    (Generator2.init 1 4 (7, 5) (3, 15) (2, 5) 64 80 2 0 true true
      "ConvInUpsampleNetwork" gen1DefaultDict).1.map
        (fun g => g.low_conv_layers.length) = some 3 :=
  ⟨by decide, by decide⟩

/-- C2 amended: Generator1 construction with layers not evenly divisible
by stacks fails immediately, before any sub-module is built and before
the upsample_params dict is touched, and the instance is never created;
Generator2 performs no divisibility check at all, and (whenever its
per-branch stack counts are nonzero and the dict carries an
upsample_scales list) constructs the instance regardless of
divisibility. -/
theorem construction_contract_amended :
    (∀ (a b k l s rc gc sc ac acw : Nat) (dr : ℚ) (bi uwn ucc ucf : Bool)
       (un : String) (d : UDict),
      ¬ (s ∣ l) →
      Generator1.init a b k l s rc gc sc ac acw dr bi uwn ucc ucf un d =
        (none, d)) ∧
    (∀ (a b : Nat) (ks l s : Nat × Nat) (rc ac acw : Nat) (dr : ℚ)
       (bi uwn : Bool) (un : String) (d : UDict) (scales : List Nat),
      s.1 ≠ 0 → s.2 ≠ 0 →
      (gen2UpdatedDict ac acw d).get "upsample_scales" =
        some (UVal.natList scales) →
      (Generator2.init a b ks l s rc ac acw dr bi uwn un d).1.isSome = true) := by
  constructor
  · intro a b k l s rc gc sc ac acw dr bi uwn ucc ucf un d hnd
    unfold Generator1.init
    by_cases hs : s = 0
    · rw [if_pos hs]
    · rw [if_neg hs, if_pos]
      exact fun hmod => hnd (Nat.dvd_iff_mod_eq_zero.mpr hmod)
  · intro a b ks l s rc ac acw dr bi uwn un d scales hs1 hs2 hget
    unfold Generator2.init
    rw [if_neg (fun hc => hs1 hc.2), if_neg (fun hc => hs2 hc.2), hget]
    rfl

/-- Witness for the amended C2: layers = 5, stacks = 2 makes Generator1
construction fail with the dict untouched, while Generator2 with
layers = [5, 7], stacks = [3, 4] (neither divisible) is constructed. -/
theorem construction_contract_amended_witness :
    ¬ ((2 : Nat) ∣ 5) ∧
    Generator1.init 1 1 3 5 2 64 128 64 80 2 0 true true false true
      "ConvInUpsampleNetwork" gen1DefaultDict = (none, gen1DefaultDict) ∧
    (Generator2.init 1 4 (7, 5) (5, 7) (3, 4) 64 80 2 0 true true
      "ConvInUpsampleNetwork" gen1DefaultDict).1.isSome = true :=
  ⟨by decide,
   construction_contract_amended.1 1 1 3 5 2 64 128 64 80 2 0 true true false
     true "ConvInUpsampleNetwork" gen1DefaultDict (by decide),
   construction_contract_amended.2 1 4 (7, 5) (5, 7) (3, 4) 64 80 2 0 true
     true "ConvInUpsampleNetwork" gen1DefaultDict [4, 4, 4, 4] (by decide)
     (by decide) (by decide)⟩

/-- Counterexample to C8 as stated: Generator1 constructed with
in_channels = 2 and out_channels = 3 has an output head whose final
pointwise convolution produces 2 channels (in_channels), not the
configured out_channels = 3. -/
theorem gen1_head_out_channels_counterexample :
    (Generator1.init 2 3 3 30 3 64 128 64 80 2 0 true true false true
      "ConvInUpsampleNetwork" gen1DefaultDict).1.map
        (fun g => g.last_conv_layers) =
      some [HeadLayer.relu, HeadLayer.conv1x1 64 64 true, HeadLayer.relu,
            HeadLayer.conv1x1 64 2 true] ∧
    (2 : Nat) ≠ 3 :=
  ⟨by decide, by decide⟩

/-- C8 amended: both output heads are the four-stage pipeline
nonlinearity, pointwise convolution, nonlinearity, pointwise convolution;
the final convolution of Generator1 maps the skip channels to in_channels
(which coincides with out_channels only when the two are equal, as at the
defaults where both are 1), and each Generator2 branch head maps the
residual channels to out_channels / 2, so the concatenation of the two
branches carries out_channels / 2 + out_channels / 2 channels. -/
theorem output_head_structure_amended :
    (∀ (a b k l s rc gc sc ac acw : Nat) (dr : ℚ) (bi uwn ucc ucf : Bool)
       (un : String) (d : UDict) (g : Generator1) (d' : UDict),
      Generator1.init a b k l s rc gc sc ac acw dr bi uwn ucc ucf un d =
        (some g, d') →
      g.last_conv_layers =
        [HeadLayer.relu, HeadLayer.conv1x1 sc sc true, HeadLayer.relu,
         HeadLayer.conv1x1 sc a true]) ∧
    (∀ (a b : Nat) (ks l s : Nat × Nat) (rc ac acw : Nat) (dr : ℚ)
       (bi uwn : Bool) (un : String) (d : UDict) (g : Generator2) (d' : UDict),
      Generator2.init a b ks l s rc ac acw dr bi uwn un d = (some g, d') →
      g.last_low_conv_layers =
        [HeadLayer.relu, HeadLayer.conv1x1 rc rc true, HeadLayer.relu,
         HeadLayer.conv1x1 rc (b / 2) true] ∧
      g.last_up_conv_layers =
        [HeadLayer.relu, HeadLayer.conv1x1 rc rc true, HeadLayer.relu,
         HeadLayer.conv1x1 rc (b / 2) true] ∧
      b / 2 + b / 2 = 2 * (b / 2)) := by
  constructor
  · intro a b k l s rc gc sc ac acw dr bi uwn ucc ucf un d g d' h
    rw [(gen1_init_inv a b k l s rc gc sc ac acw dr bi uwn ucc ucf un d g d' h).2.1]
    rfl
  · intro a b ks l s rc ac acw dr bi uwn un d g d' h
    obtain ⟨_, _, h3, h4, _⟩ :=
      gen2_init_inv a b ks l s rc ac acw dr bi uwn un d g d' h
    rw [h3, h4]
    exact ⟨rfl, rfl, (two_mul (b / 2)).symm⟩

/-- Witness for the amended C8 on the default-constructed instances. -/
theorem output_head_structure_amended_witness :
    gen1ExampleInstance.last_conv_layers =
      [HeadLayer.relu, HeadLayer.conv1x1 64 64 true, HeadLayer.relu,
       HeadLayer.conv1x1 64 1 true] ∧
    gen2ExampleInstance.last_low_conv_layers =
      [HeadLayer.relu, HeadLayer.conv1x1 64 64 true, HeadLayer.relu,
       HeadLayer.conv1x1 64 2 true] ∧
    gen2ExampleInstance.last_up_conv_layers =
      [HeadLayer.relu, HeadLayer.conv1x1 64 64 true, HeadLayer.relu,
       HeadLayer.conv1x1 64 2 true] ∧
    (4 : Nat) / 2 + 4 / 2 = 2 * (4 / 2) := by
  have h1 := output_head_structure_amended.1 1 1 3 30 3 64 128 64 80 2 0 true
    true false true "ConvInUpsampleNetwork" gen1DefaultDict gen1ExampleInstance
    gen1InitDefaultResult.2 rfl
  have h2 := output_head_structure_amended.2 1 4 (7, 5) (16, 15) (8, 5) 64 80
    2 0 true true "ConvInUpsampleNetwork" gen1DefaultDict gen2ExampleInstance
    gen2InitDefaultResult.2 rfl
  exact ⟨h1, h2.1, h2.2.1, h2.2.2⟩

/-- C10: Construction mutates the upsample_params dict it was given in
place — for these default option values the dict any caller passes comes
back with use_causal_conv inserted and then aux_channels and
aux_context_window inserted (Generator1), respectively aux_channels and
aux_context_window inserted (Generator2).  CPython evaluates the default
upsample_params dict once at function-definition time and every call
omitting the argument receives that same object, modelled by threading
the returned dict into the next construction: the first all-defaults
construction visibly changes the shared dict, and the next construction
relying on the default observes the accumulated keys. -/
theorem upsample_params_shared_mutation :
    (∀ d : UDict,
      (Generator1.init 1 1 3 30 3 64 128 64 80 2 0 true true false true
        "ConvInUpsampleNetwork" d).2 =
        (d.update [("use_causal_conv", UVal.bool false)]).update
          [("aux_channels", UVal.nat 80), ("aux_context_window", UVal.nat 2)]) ∧
    (∀ d : UDict,
      (Generator2.init 1 4 (7, 5) (16, 15) (8, 5) 64 80 2 0 true true
        "ConvInUpsampleNetwork" d).2 =
        d.update [("aux_channels", UVal.nat 80),
                  ("aux_context_window", UVal.nat 2)]) ∧
    gen1InitDefaultResult.2 ≠ gen1DefaultDict ∧
    gen1InitDefaultResult.2.get "use_causal_conv" = some (UVal.bool false) ∧
    gen1InitDefaultResult.2.get "aux_channels" = some (UVal.nat 80) ∧
    gen1InitDefaultResult.2.get "aux_context_window" = some (UVal.nat 2) ∧
    (Generator1.init 1 1 3 30 3 64 128 64 80 2 0 true true false true
      "ConvInUpsampleNetwork" gen1InitDefaultResult.2).2.get "use_causal_conv" =
      some (UVal.bool false) := by
  refine ⟨?_, ?_, by decide, by decide, by decide, by decide, by decide⟩
  · intro d
    rcases hm : (((d.update [("use_causal_conv", UVal.bool false)]).update
        [("aux_channels", UVal.nat 80),
         ("aux_context_window", UVal.nat 2)]).get "upsample_scales")
      with _ | v
    · simp [Generator1.init, gen1Upsample, hm]
    · rcases v with b | n | l <;> simp [Generator1.init, gen1Upsample, hm]
  · intro d
    rcases hm : ((d.update [("aux_channels", UVal.nat 80),
        ("aux_context_window", UVal.nat 2)]).get "upsample_scales") with _ | v
    · simp [Generator2.init, gen2UpdatedDict, hm]
    · rcases v with b | n | l <;> simp [Generator2.init, gen2UpdatedDict, hm]
